import Mathlib

set_option maxRecDepth 4000

/-!
# Verification of the `sptsong` terminal now-playing display

Shallow embedding of the pure/state-transition core of the Go program
(`main.go`, and the alternative condensed implementation in
`src/unnamed/part_000`): layout engine, metadata adapter, progress-bar
renderer, time formatting, keyboard handling, and the event-loop tick
step, together with proofs of the specified properties.

Machine integers (`int`, `int64`) are modelled as `Int`; Go's integer
division and remainder truncate toward zero, modelled by `Int.tdiv` /
`Int.tmod`.  Conversion of a `uint64` to `int64` wraps modulo `2^64`.
-/

namespace Sptsong

/-! ## Display configuration and layout engine

`Config` collects the alignment/geometry fields of the Go
`SpotifyDisplay` struct (`minWidth`, `contentHeight`, `margin`,
`horizontalAlign`, `verticalAlign`).  The defaults come from
`NewSpotifyDisplay`. -/

structure Config where
  minWidth : Int
  contentHeight : Int
  margin : Int
  horizontalAlign : String
  verticalAlign : String
deriving DecidableEq, Repr

/-- Defaults set by `NewSpotifyDisplay`: `minWidth = 60`,
`contentHeight = 9`, `margin = 2`, `horizontalAlign = "center"`,
`verticalAlign = "bottom"`. -/
def defaultConfig : Config :=
  { minWidth := 60, contentHeight := 9, margin := 2
    horizontalAlign := "center", verticalAlign := "bottom" }

structure TerminalSize where
  width : Int
  height : Int
  startX : Int
  startY : Int
deriving DecidableEq, Repr

/-- Embedding of `SpotifyDisplay.getTerminalSize` from `main.go` (lines 79–108), with
the terminal dimensions reported by the terminal library passed in as
arguments.  The `switch` on `horizontalAlign` has cases `"left"` and
`"right"` and a `default` (center) branch; the `switch` on
`verticalAlign` has cases `"top"` and `"bottom"` and a `default`
(center) branch.  Go's `/` on `int` truncates toward zero (`Int.tdiv`). -/
def getTerminalSize (cfg : Config) (width height : Int) : TerminalSize :=
  let startX :=
    if cfg.horizontalAlign = "left" then cfg.margin
    else if cfg.horizontalAlign = "right" then width - cfg.minWidth - cfg.margin
    else (width - cfg.minWidth).tdiv 2
  let startY :=
    if cfg.verticalAlign = "top" then cfg.margin
    else if cfg.verticalAlign = "bottom" then height - cfg.contentHeight - cfg.margin
    else (height - cfg.contentHeight).tdiv 2
  { width := width, height := height, startX := startX, startY := startY }

/-- Embedding of `SpotifyDisplay.getTerminalSize` from `src/unnamed/part_000`
(lines 72–90).  There the initial values are the center formula for
`startX` and the bottom formula for `startY`, overridden by
`if`/`else if` chains: horizontal checks `"left"` then `"right"`,
vertical checks `"top"` then `"center"`. -/
def getTerminalSizeAlt (cfg : Config) (width height : Int) : TerminalSize :=
  let startX0 := (width - cfg.minWidth).tdiv 2
  let startY0 := height - cfg.contentHeight - cfg.margin
  let startX :=
    if cfg.horizontalAlign = "left" then cfg.margin
    else if cfg.horizontalAlign = "right" then width - cfg.minWidth - cfg.margin
    else startX0
  let startY :=
    if cfg.verticalAlign = "top" then cfg.margin
    else if cfg.verticalAlign = "center" then (height - cfg.contentHeight).tdiv 2
    else startY0
  { width := width, height := height, startX := startX, startY := startY }

/-! ## Keyboard handling -/

/-- The special keys `handleKeyboard` inspects; `other` stands for every
`termbox.Key` value outside the four arrow keys. -/
inductive Key where
  | arrowUp | arrowDown | arrowLeft | arrowRight | other
deriving DecidableEq, Repr

/-- A decoded key event: the special-key code and the printable
character (`termbox.Event.Key` / `termbox.Event.Ch`).  A `ch` of `(0 : Char)`
models termbox's zero rune for non-character keys. -/
structure KeyEvent where
  key : Key
  ch : Char
deriving DecidableEq, Repr

/-- Embedding of `SpotifyDisplay.handleKeyboard` from `main.go` (lines 344–369): the
`switch` on the key sets one alignment axis per arrow key, then an
independent `if event.Ch == 'c'` resets both axes to `"center"`.
Returns the updated config and the `redraw` flag. -/
def handleKeyboard (cfg : Config) (ev : KeyEvent) : Config × Bool :=
  let step :=
    match ev.key with
    | .arrowUp => ({ cfg with verticalAlign := "top" }, true)
    | .arrowDown => ({ cfg with verticalAlign := "bottom" }, true)
    | .arrowLeft => ({ cfg with horizontalAlign := "left" }, true)
    | .arrowRight => ({ cfg with horizontalAlign := "right" }, true)
    | .other => (cfg, false)
  if ev.ch = 'c' then
    ({ step.1 with horizontalAlign := "center", verticalAlign := "center" }, true)
  else step

/-! ## Metadata source adapter

The external bus delivers variant-typed values.  `DBusNum` models the
dynamic type of a numeric field: a signed 64-bit value, an unsigned
64-bit value (carried as a `Nat < 2^64`), or any other type
(`unsupported`), which `getMetadata` rejects with an error. -/

inductive DBusNum where
  | i64 (v : Int)
  | u64 (v : Nat)
  | unsupported
deriving DecidableEq, Repr

/-- Go's conversion `int64(v)` of a `uint64` value `v`: values below
`2^63` are unchanged, larger ones wrap around modulo `2^64` to a
negative number. -/
def int64OfUInt64 (v : Nat) : Int :=
  if v < 2 ^ 63 then (v : Int) else (v : Int) - 2 ^ 64

/-- The `switch v := ... .Value().(type)` blocks of `getMetadata`
(`main.go` lines 126–144): an `int64` is taken as is, a `uint64` is
converted via `int64(v)`, any other dynamic type yields an error
(`none`). -/
def decodeInt64 : DBusNum → Option Int
  | .i64 v => some v
  | .u64 v => some (int64OfUInt64 v)
  | .unsupported => none

/-- The raw data a tick's two property queries deliver, after the
dynamic-type assertions are made explicit: `artists = none` models a
`xesam:artist` field that is not a string list (the failed type
assertion), `artURL = none` models an absent `mpris:artUrl` key. -/
structure RawMetadata where
  title : String
  album : String
  artists : Option (List String)
  length : DBusNum
  position : DBusNum
  artURL : Option String
deriving DecidableEq, Repr

structure Metadata where
  title : String
  artist : String
  album : String
  length : Int
  position : Int
  artURL : String
deriving DecidableEq, Repr

/-- The remote cover-art CDN base accepted by `getMetadata`. -/
def scdnImageBase : String := "https://i.scdn.co/image/"

/-- The local-file URI scheme accepted by `getMetadata`. -/
def fileScheme : String := "file://"

/-- Go `strings.HasPrefix s p` (the prefixes matched here are ASCII, so
byte-level and character-level matching coincide). -/
def startsWithStr (s p : String) : Bool :=
  p.data.isPrefixOf s.data

/-- Drop the first `n` characters of `s` (used for Go's
`strings.TrimPrefix` once the prefix is known to be present and ASCII). -/
def dropChars (s : String) (n : Nat) : String :=
  String.mk (s.data.drop n)

/-- Go `strings.Trim(s, "\"")`: remove all leading and all trailing
double-quote characters. -/
def trimQuotes (s : String) : String :=
  String.mk (((s.data.dropWhile (· = '"')).reverse.dropWhile (· = '"')).reverse)

/-- The art-URL normalization block of `getMetadata` (`main.go` lines
156–175): if the `mpris:artUrl` key is absent the reference stays
empty; otherwise the raw field is quote-trimmed and then matched: a
string starting with the CDN base is kept as is, a `file://` URI has
the scheme stripped (`strings.TrimPrefix` removes exactly the 7
scheme characters), everything else yields the empty reference. -/
def normalizeArtURL (raw : Option String) : String :=
  match raw with
  | none => ""
  | some r =>
    let t := trimQuotes r
    if startsWithStr t scdnImageBase then t
    else if startsWithStr t fileScheme then dropChars t fileScheme.length
    else ""

/-- Embedding of `SpotifyDisplay.getMetadata` from `main.go` (lines 110–185).  The
argument is `none` when the bus query itself errors, the metadata value
is not a dictionary, or the position query errors (the three early
returns); otherwise the decoded dictionary.  Numeric microsecond fields
are divided by 1,000,000 with Go's truncating division; the artist is
the first list entry or the `"Unknown Artist"` sentinel. -/
def getMetadata (raw : Option RawMetadata) : Except String Metadata := do
  let some md := raw | throw "metadata query failed"
  let some length := decodeInt64 md.length | throw "unexpected length type"
  let some pos := decodeInt64 md.position | throw "unexpected position type"
  let some artists := md.artists | throw "invalid artist format"
  let artistName := match artists with
    | [] => "Unknown Artist"
    | a :: _ => a
  pure { title := md.title, artist := artistName, album := md.album
         length := length.tdiv 1000000, position := pos.tdiv 1000000
         artURL := normalizeArtURL md.artURL }

/-! ## Renderer: time label and progress bar -/

/-- Go's `fmt.Sprintf("%02d", n)`: pad the decimal rendering with
leading zeros up to width 2 (a sign counts toward the width, as in Go). -/
def pad2 (n : Int) : String :=
  let s := toString n
  if s.length < 2 then String.mk (List.replicate (2 - s.length) '0') ++ s else s

/-- Embedding of `formatTime` from `main.go` (lines 307–311): minutes by truncating
division by 60, seconds by Go's `%` (truncated remainder), each
zero-padded to two digits. -/
def formatTime (seconds : Int) : String :=
  pad2 (seconds.tdiv 60) ++ ":" ++ pad2 (seconds.tmod 60)

/-- The fill count computed by `SpotifyDisplay.drawProgressBar` in
`main.go` (lines 313–324).  The source computes
`int(float64(Position) / float64(Length) * float64(40))` and clamps to
`[0, 40]`, guarded by `Length > 0`.  Both operands come from `int64`
microsecond values divided by 1,000,000, so `|Position|, |Length| <
2^63 / 10^6 < 2^53`: both convert to `float64` exactly, and a standard
error analysis shows the rounded double result always truncates to the
same integer as the exact rational `Position * 40 / Length`, modelled
here by the truncating division `Int.tdiv`. -/
def progressFill (position length : Int) : Int :=
  if length > 0 then
    let p := (position * 40).tdiv length
    let p := if p < 0 then 0 else p
    if p > 40 then 40 else p
  else 0

/-- Go `strings.Repeat` of a single character (the counts used by the
renderer are always in `[0, 60]`, so the negative-count panic of the Go
function is unreachable; a negative model count yields the empty
string). -/
def repeatChar (c : Char) (n : Int) : String :=
  String.mk (List.replicate n.toNat c)

/-- The bar string of `drawProgressBar`: `progress` filled glyphs
followed by `40 - progress` empty glyphs. -/
def progressBar (position length : Int) : String :=
  let p := progressFill position length
  repeatChar '━' p ++ repeatChar '─' (40 - p)

/-! ## Event loop

Terminal output is observed as a trace of abstract write commands: a
full-screen clear, a string printed at a cursor position (a `moveCursor`
followed by a print), or the external image render at a position. -/

inductive TermWrite where
  | clear
  | text (x y : Int) (s : String)
  | image (path : String) (x y : Int)
deriving DecidableEq, Repr

/-- The write trace of `drawProgressBar` (`main.go` lines 326–342):
blank the two 60-column regions, print the bar, print the centered
`mm:ss/mm:ss` label (`len` of the ASCII label equals its character
count). -/
def drawProgressBarWrites (md : Metadata) (term : TerminalSize) : List TermWrite :=
  let bar := progressBar md.position md.length
  let timeText := formatTime md.position ++ "/" ++ formatTime md.length
  [ .text (term.startX + 20) (term.startY + 4) (repeatChar ' ' 60)
  , .text (term.startX + 20) (term.startY + 5) (repeatChar ' ' 60)
  , .text (term.startX + 20) (term.startY + 4) bar
  , .text (term.startX + 20 + ((40 : Int) - timeText.length).tdiv 2) (term.startY + 5) timeText ]

/-- The mutable state the `Run` loop owns across iterations: the
alignment config and the artwork cache slot `currentArtURL`. -/
structure LoopState where
  config : Config
  currentArtURL : String
deriving DecidableEq, Repr

/-- One timer-tick iteration of `SpotifyDisplay.Run` (`main.go` lines
431–461).  Inputs: the current terminal dimensions, the raw result of
the metadata queries, and `dl`, the result `downloadArtwork` would
return for this tick's art reference (`.error` for an `ArtworkError`,
`.ok imagePath` on success); `displayImage` errors are only logged and
do not affect state, so they are not distinguished in the trace.
Returns the new state, the write trace, and whether the artwork
pipeline (fetch) was invoked this tick. -/
def tickStep (s : LoopState) (width height : Int) (raw : Option RawMetadata)
    (dl : Except String String) : LoopState × List TermWrite × Bool :=
  let term := getTerminalSize s.config width height
  match getMetadata raw with
  | .error _ => (s, [], false)
  | .ok md =>
    let draws : List TermWrite :=
      [ .text (term.startX + 20) term.startY "♫ Now Playing"
      , .text (term.startX + 20) (term.startY + 1) md.title
      , .text (term.startX + 20) (term.startY + 2) ("by " ++ md.artist) ]
      ++ drawProgressBarWrites md term
    if md.artURL ≠ s.currentArtURL ∧ md.artURL ≠ "" then
      let s' := { s with currentArtURL := md.artURL }
      match dl with
      | .error _ => (s', draws, true)
      | .ok imagePath =>
        if imagePath ≠ "" then
          (s', draws ++ [.image imagePath term.startX term.startY], true)
        else (s', draws, true)
    else (s, draws, false)

/-- The loop's control state: `Run` keeps iterating (`running`) until
the quit key or a termination signal returns from the function
(`terminated`). -/
inductive LoopMode where
  | running | terminated
deriving DecidableEq, Repr

structure RunState where
  config : Config
  currentArtURL : String
  mode : LoopMode
deriving DecidableEq, Repr

/-- One event the `select` in `Run` can wake up on: a decoded keyboard
event, a timer tick (bundled with that tick's external inputs), or a
termination signal. -/
inductive LoopEvent where
  | key (ev : KeyEvent)
  | tick (width height : Int) (raw : Option RawMetadata) (dl : Except String String)
  | signal
deriving Repr

/-- One iteration of the `select` loop of `SpotifyDisplay.Run`
(`main.go` lines 418–466): `'q'` and a signal terminate; any other key
event goes through `handleKeyboard`, and when that reports a redraw the
screen is cleared and the artwork cache slot is reset; a timer tick
runs `tickStep`.  A terminated loop does nothing. -/
def loopStep (s : RunState) (e : LoopEvent) : RunState × List TermWrite :=
  match s.mode with
  | .terminated => (s, [])
  | .running =>
    match e with
    | .key ev =>
      if ev.ch = 'q' then ({ s with mode := .terminated }, [])
      else
        let r := handleKeyboard s.config ev
        if r.2 then
          ({ s with config := r.1, currentArtURL := "" }, [.clear])
        else ({ s with config := r.1 }, [])
    | .signal => ({ s with mode := .terminated }, [])
    | .tick w h raw dl =>
      let r := tickStep ⟨s.config, s.currentArtURL⟩ w h raw dl
      ({ s with config := r.1.config, currentArtURL := r.1.currentArtURL }, r.2.1)

/-! ## Concrete inputs used by witnesses and counterexamples -/

/-- A well-formed raw metadata record whose art reference is a CDN URL. -/
def rawCDN : RawMetadata :=
  { title := "Track", album := "Album", artists := some ["Artist"]
    length := .i64 180000000, position := .i64 65000000
    artURL := some "\"https://i.scdn.co/image/ab67\"" }

/-- The decoded record `getMetadata (some rawCDN)` produces. -/
def mdCDN : Metadata :=
  { title := "Track", artist := "Artist", album := "Album"
    length := 180, position := 65, artURL := "https://i.scdn.co/image/ab67" }

end Sptsong

namespace Sptsong

/-! ## Helper lemmas -/

/-- A string starting with `file://` cannot also start with the CDN
base (they differ in their first character). -/
theorem not_scdn_of_fileScheme (t : String)
    (h : startsWithStr t fileScheme = true) :
    startsWithStr t scdnImageBase = false := by
  have h' : List.isPrefixOf ('f' :: "ile://".data) t.data = true := h
  show List.isPrefixOf ('h' :: "ttps://i.scdn.co/image/".data) t.data = false
  cases ht : t.data with
  | nil => rw [ht] at h'; simp [List.isPrefixOf] at h'
  | cons c cs =>
    rw [ht] at h'
    simp only [List.isPrefixOf, Bool.and_eq_true, beq_iff_eq] at h' ⊢
    simp only [Bool.and_eq_false_iff]
    left
    have hc : c = 'f' := h'.1.symm
    subst hc
    decide

/-! ## Claim theorems -/

/-- C9: `formatTime` maps a second count to a `"mm:ss"` string by
integer division and modulo by 60 with two-digit zero padding:
`formatTime 125 = "02:05"`, `formatTime 0 = "00:00"`, and
`formatTime 3600 = "60:00"`. -/
theorem formatTime_mmss :
    formatTime 125 = "02:05" ∧ formatTime 0 = "00:00" ∧
      formatTime 3600 = "60:00" := by
  refine ⟨?_, ?_, ?_⟩ <;> decide

/-- C2: with `lengthSeconds = 0` and any `positionSeconds`, the
progress-bar fill count is `0` and the bar is 40 empty glyphs; the
computation is total (the `Length > 0` guard prevents the division). -/
theorem progressBar_zero_length (position : Int) :
    progressFill position 0 = 0 ∧
      progressBar position 0 = repeatChar '─' 40 := by
  constructor
  · rfl
  · rfl

/-- C4: the computed origin obeys the alignment laws —
`left → margin`, `right → width − minWidth − margin`,
`center → (width − minWidth) / 2` with truncating division, and the
analogous vertical laws — and no clamping is applied: the default
config on a 10×3 terminal yields the negative origins `(-25, -8)`. -/
theorem getTerminalSize_origin (cfg : Config) (width height : Int) :
    ((cfg.horizontalAlign = "left" →
        (getTerminalSize cfg width height).startX = cfg.margin) ∧
     (cfg.horizontalAlign = "right" →
        (getTerminalSize cfg width height).startX = width - cfg.minWidth - cfg.margin) ∧
     (cfg.horizontalAlign = "center" →
        (getTerminalSize cfg width height).startX = (width - cfg.minWidth).tdiv 2)) ∧
    ((cfg.verticalAlign = "top" →
        (getTerminalSize cfg width height).startY = cfg.margin) ∧
     (cfg.verticalAlign = "bottom" →
        (getTerminalSize cfg width height).startY = height - cfg.contentHeight - cfg.margin) ∧
     (cfg.verticalAlign = "center" →
        (getTerminalSize cfg width height).startY = (height - cfg.contentHeight).tdiv 2)) ∧
    ((getTerminalSize defaultConfig 10 3).startX = -25 ∧
     (getTerminalSize defaultConfig 10 3).startY = -8) := by
  refine ⟨⟨?_, ?_, ?_⟩, ⟨?_, ?_, ?_⟩, by decide, by decide⟩ <;>
    intro hA <;> simp [getTerminalSize, hA]

/-- Witness for C4: the laws evaluated on concrete inputs — a
left/top-aligned config puts the origin at the margin, right/bottom at
the far edges, center at the midpoint. -/
theorem getTerminalSize_origin_witness :
    (getTerminalSize ⟨60, 9, 2, "left", "top"⟩ 100 50).startX = 2 ∧
    (getTerminalSize ⟨60, 9, 2, "left", "top"⟩ 100 50).startY = 2 ∧
    (getTerminalSize ⟨60, 9, 2, "right", "bottom"⟩ 100 50).startX = 38 ∧
    (getTerminalSize ⟨60, 9, 2, "right", "bottom"⟩ 100 50).startY = 39 ∧
    (getTerminalSize ⟨60, 9, 2, "center", "center"⟩ 100 50).startX = 20 ∧
    (getTerminalSize ⟨60, 9, 2, "center", "center"⟩ 100 50).startY = 20 :=
  ⟨(getTerminalSize_origin _ 100 50).1.1 rfl,
   (getTerminalSize_origin _ 100 50).2.1.1 rfl,
   ((getTerminalSize_origin _ 100 50).1.2.1 rfl).trans (by decide),
   ((getTerminalSize_origin _ 100 50).2.1.2.1 rfl).trans (by decide),
   ((getTerminalSize_origin _ 100 50).1.2.2 rfl).trans (by decide),
   ((getTerminalSize_origin _ 100 50).2.1.2.2 rfl).trans (by decide)⟩

/-- C6: art-reference normalization first strips surrounding quotes;
a result starting with the CDN base is kept unchanged, a `file://`
result has the 7 scheme characters stripped, every other string — and
the absent-field case — yields the empty reference (and no error: the
function is total). -/
theorem normalizeArtURL_cases (r : String) :
    normalizeArtURL none = "" ∧
    (startsWithStr (trimQuotes r) scdnImageBase = true →
      normalizeArtURL (some r) = trimQuotes r) ∧
    (startsWithStr (trimQuotes r) fileScheme = true →
      normalizeArtURL (some r) = dropChars (trimQuotes r) 7) ∧
    (startsWithStr (trimQuotes r) scdnImageBase = false →
      startsWithStr (trimQuotes r) fileScheme = false →
      normalizeArtURL (some r) = "") := by
  refine ⟨rfl, ?_, ?_, ?_⟩
  · intro h; simp [normalizeArtURL, h]
  · intro h
    simp only [normalizeArtURL, not_scdn_of_fileScheme _ h, h, Bool.false_eq_true,
      if_false, if_true]
    rfl
  · intro h1 h2; simp [normalizeArtURL, h1, h2]

/-- Witness for C6: normalization evaluated on a quoted CDN URL, a
local-file URI, an unrecognized scheme, and the absent field. -/
theorem normalizeArtURL_cases_witness :
    normalizeArtURL (some "\"https://i.scdn.co/image/ab67\"") = "https://i.scdn.co/image/ab67" ∧
    normalizeArtURL (some "\"file:///tmp/cover.png\"") = "/tmp/cover.png" ∧
    normalizeArtURL (some "spotify:image:ab67") = "" ∧
    normalizeArtURL none = "" :=
  ⟨((normalizeArtURL_cases "\"https://i.scdn.co/image/ab67\"").2.1 (by decide)).trans (by decide),
   ((normalizeArtURL_cases "\"file:///tmp/cover.png\"").2.2.1 (by decide)).trans (by decide),
   (normalizeArtURL_cases "spotify:image:ab67").2.2.2 (by decide) (by decide),
   (normalizeArtURL_cases "").1⟩

/-- C7: a `MetadataError` on a tick (bus failure, malformed dictionary,
or bad numeric type, i.e. `getMetadata raw = .error`) makes the tick a
no-op: no terminal writes at all, the entire loop state — alignment
config, artwork cache slot, and the `running` mode — is unchanged, so
the loop survives every such failure and the next tick proceeds from
the same state. -/
theorem metadataError_skips_tick (s : RunState) (w h : Int)
    (raw : Option RawMetadata) (dl : Except String String) (msg : String)
    (hrun : s.mode = .running) (herr : getMetadata raw = .error msg) :
    loopStep s (.tick w h raw dl) = (s, []) ∧
      (loopStep s (.tick w h raw dl)).1.mode = .running := by
  obtain ⟨cfg, url, mode⟩ := s
  cases hrun
  refine ⟨?_, ?_⟩ <;> simp [loopStep, tickStep, herr]

/-- Witness for C7: a tick whose bus query failed (raw input `none`)
leaves a concrete running state untouched and draws nothing. -/
theorem metadataError_skips_tick_witness :
    loopStep ⟨defaultConfig, "", .running⟩ (.tick 80 24 none (.ok "p"))
        = (⟨defaultConfig, "", .running⟩, []) ∧
      (loopStep ⟨defaultConfig, "", .running⟩ (.tick 80 24 none (.ok "p"))).1.mode
        = .running :=
  metadataError_skips_tick ⟨defaultConfig, "", .running⟩ 80 24 none (.ok "p")
    "metadata query failed" rfl rfl

/-- C5: on a tick that decodes metadata successfully, the artwork
pipeline is invoked iff the normalized art reference is non-empty and
differs from the cached slot; an empty reference never triggers a
fetch; and a second consecutive tick carrying the same raw metadata
never fetches again (at most one fetch per distinct reference). -/
theorem artwork_trigger_iff (ls : LoopState) (w h : Int)
    (raw : Option RawMetadata) (dl : Except String String) (md : Metadata)
    (hok : getMetadata raw = .ok md) :
    ((tickStep ls w h raw dl).2.2 = true ↔
        (md.artURL ≠ ls.currentArtURL ∧ md.artURL ≠ "")) ∧
    (md.artURL = "" → (tickStep ls w h raw dl).2.2 = false) ∧
    (∀ (w2 h2 : Int) (dl2 : Except String String),
        (tickStep (tickStep ls w h raw dl).1 w2 h2 raw dl2).2.2 = false) := by
  have hflag : ∀ (ls' : LoopState) (w' h' : Int) (dl' : Except String String),
      (tickStep ls' w' h' raw dl').2.2
        = decide (md.artURL ≠ ls'.currentArtURL ∧ md.artURL ≠ "") := by
    intro ls' w' h' dl'
    by_cases hc : md.artURL ≠ ls'.currentArtURL ∧ md.artURL ≠ ""
    · cases dl' with
      | error e => simp [tickStep, hok, hc]
      | ok p =>
        by_cases hp : p ≠ "" <;> simp [tickStep, hok, hc, hp]
    · simp [tickStep, hok, hc]
  refine ⟨by simp [hflag], by intro he; simp [hflag, he], ?_⟩
  intro w2 h2 dl2
  rw [hflag]
  by_cases hc : md.artURL ≠ ls.currentArtURL ∧ md.artURL ≠ ""
  · -- the first tick fetched and set the slot to this reference
    have hs : (tickStep ls w h raw dl).1.currentArtURL = md.artURL := by
      cases dl with
      | error e => simp [tickStep, hok, hc]
      | ok p =>
        by_cases hp : p ≠ "" <;> simp [tickStep, hok, hc, hp]
    rw [hs]; simp
  · -- the first tick did not fetch, so the trigger fails again
    have hs : (tickStep ls w h raw dl).1.currentArtURL = ls.currentArtURL := by
      simp [tickStep, hok, hc]
    rw [hs]
    simpa using hc

/-- Witness for C5: with a fresh CDN reference the first tick fetches
even when the download fails, and a second tick with the same raw
metadata does not fetch again. -/
theorem artwork_trigger_iff_witness :
    (tickStep ⟨defaultConfig, ""⟩ 80 24 (some rawCDN) (.error "e")).2.2 = true ∧
    (tickStep (tickStep ⟨defaultConfig, ""⟩ 80 24 (some rawCDN) (.error "e")).1
        80 24 (some rawCDN) (.ok "/cache/current_artwork.png")).2.2 = false :=
  ⟨(artwork_trigger_iff ⟨defaultConfig, ""⟩ 80 24 (some rawCDN) (.error "e") mdCDN
      (by rfl)).1.mpr ⟨by decide, by decide⟩,
   (artwork_trigger_iff ⟨defaultConfig, ""⟩ 80 24 (some rawCDN) (.error "e") mdCDN
      (by rfl)).2.2 80 24 (.ok "/cache/current_artwork.png")⟩

/-- C1 counterexample: on a tick whose artwork fetch fails with an
`ArtworkError`, the cache slot is *not* left unchanged — starting from
the cached reference `"old"`, the pipeline is invoked, the download
result is an error, and the slot afterwards holds the new CDN
reference. -/
theorem artCache_error_counterexample :
    (tickStep ⟨defaultConfig, "old"⟩ 80 24 (some rawCDN) (.error "HTTP 404")).2.2
        = true ∧
    (tickStep ⟨defaultConfig, "old"⟩ 80 24 (some rawCDN) (.error "HTTP 404")).1.currentArtURL
        = "https://i.scdn.co/image/ab67" ∧
    ("https://i.scdn.co/image/ab67" : String) ≠ "old" := by
  refine ⟨?_, ?_, by decide⟩ <;> decide

/-- C1 amended: the cache slot is updated *whenever the artwork
pipeline is invoked, before the fetch*: it is set to the tick's art
reference regardless of whether the fetch succeeds or fails (which is
why a failed reference is not retried until it changes again). -/
theorem artCache_updated_on_invocation (ls : LoopState) (w h : Int)
    (raw : Option RawMetadata) (dl : Except String String) (md : Metadata)
    (hok : getMetadata raw = .ok md)
    (htrig : md.artURL ≠ ls.currentArtURL ∧ md.artURL ≠ "") :
    (tickStep ls w h raw dl).1.currentArtURL = md.artURL := by
  cases dl with
  | error e => simp [tickStep, hok, htrig]
  | ok p =>
    by_cases hp : p ≠ "" <;> simp [tickStep, hok, htrig, hp]

/-- Witness for C1 (amended): the cache slot equals the new reference
after a failed fetch on a concrete tick. -/
theorem artCache_updated_on_invocation_witness :
    (tickStep ⟨defaultConfig, ""⟩ 80 24 (some rawCDN) (.error "timeout")).1.currentArtURL
      = "https://i.scdn.co/image/ab67" :=
  artCache_updated_on_invocation ⟨defaultConfig, ""⟩ 80 24 (some rawCDN)
    (.error "timeout") mdCDN (by rfl) ⟨by decide, by decide⟩

/-- C10: on the alignment values reachable from the defaults through
the keyboard handler — `horizontalAlign ∈ {left, center, right}`,
`verticalAlign ∈ {top, center, bottom}` — the two implementations of
the layout computation agree for every terminal size; the handler
keeps the config inside that domain and the defaults lie in it; outside
it the two disagree on the vertical origin (`main.go` falls back to
the center formula, `part_000` to the bottom formula). -/
theorem getTerminalSize_equiv :
    (∀ (cfg : Config) (width height : Int),
      (cfg.horizontalAlign = "left" ∨ cfg.horizontalAlign = "center" ∨
        cfg.horizontalAlign = "right") →
      (cfg.verticalAlign = "top" ∨ cfg.verticalAlign = "center" ∨
        cfg.verticalAlign = "bottom") →
      getTerminalSize cfg width height = getTerminalSizeAlt cfg width height) ∧
    ((getTerminalSize ⟨60, 9, 2, "center", "unset"⟩ 80 20).startY = 5 ∧
     (getTerminalSizeAlt ⟨60, 9, 2, "center", "unset"⟩ 80 20).startY = 9) ∧
    (∀ (cfg : Config) (ev : KeyEvent),
      (cfg.horizontalAlign = "left" ∨ cfg.horizontalAlign = "center" ∨
        cfg.horizontalAlign = "right") →
      (cfg.verticalAlign = "top" ∨ cfg.verticalAlign = "center" ∨
        cfg.verticalAlign = "bottom") →
      (((handleKeyboard cfg ev).1.horizontalAlign = "left" ∨
        (handleKeyboard cfg ev).1.horizontalAlign = "center" ∨
        (handleKeyboard cfg ev).1.horizontalAlign = "right") ∧
       ((handleKeyboard cfg ev).1.verticalAlign = "top" ∨
        (handleKeyboard cfg ev).1.verticalAlign = "center" ∨
        (handleKeyboard cfg ev).1.verticalAlign = "bottom"))) ∧
    (defaultConfig.horizontalAlign = "center" ∧
     defaultConfig.verticalAlign = "bottom") := by
  refine ⟨?_, ⟨by decide, by decide⟩, ?_, by decide, by decide⟩
  · intro cfg width height hh hv
    rcases hh with hh | hh | hh <;> rcases hv with hv | hv | hv <;>
      simp [getTerminalSize, getTerminalSizeAlt, hh, hv]
  · intro cfg ev hh hv
    cases hk : ev.key <;> by_cases hc : ev.ch = 'c' <;>
      simp [handleKeyboard, hk, hc] <;> tauto

/-- Witness for C10: both implementations computed at a concrete
in-domain config and terminal size, and the keyboard-closure law at a
concrete event. -/
theorem getTerminalSize_equiv_witness :
    getTerminalSize ⟨60, 9, 2, "center", "bottom"⟩ 100 40
        = getTerminalSizeAlt ⟨60, 9, 2, "center", "bottom"⟩ 100 40 ∧
    ((handleKeyboard ⟨60, 9, 2, "center", "bottom"⟩ ⟨.arrowUp, Char.ofNat 0⟩).1.verticalAlign = "top" ∨
     (handleKeyboard ⟨60, 9, 2, "center", "bottom"⟩ ⟨.arrowUp, Char.ofNat 0⟩).1.verticalAlign = "center" ∨
     (handleKeyboard ⟨60, 9, 2, "center", "bottom"⟩ ⟨.arrowUp, Char.ofNat 0⟩).1.verticalAlign = "bottom") :=
  ⟨getTerminalSize_equiv.1 ⟨60, 9, 2, "center", "bottom"⟩ 100 40
      (Or.inr (Or.inl rfl)) (Or.inr (Or.inr rfl)),
   (getTerminalSize_equiv.2.2.1 ⟨60, 9, 2, "center", "bottom"⟩ ⟨.arrowUp, Char.ofNat 0⟩
      (Or.inr (Or.inl rfl)) (Or.inr (Or.inr rfl))).2⟩

/-- C3 counterexample: the fill count is *truncated*, not rounded —
at `positionSeconds = 2`, `lengthSeconds = 3` (in the claim's domain
`length > 0`, `position ≥ 0`) the code computes `⅔ · 40 = 26.67 → 26`,
while the claimed `round(position / length * 40)` clamped to `[0, 40]`
is `27`. -/
theorem progressFill_not_round :
    progressFill 2 3 = 26 ∧
      max 0 (min 40 (round ((2 : ℚ) / 3 * 40))) = 27 := by
  refine ⟨by decide, ?_⟩
  norm_num [round_eq]

/-- C3 amended: for `lengthSeconds > 0` and `positionSeconds ≥ 0` the
fill count equals `position / length * 40` *truncated* (`⌊·⌋`, which is
truncation toward zero for these signs) and clamped to `[0, 40]`; in
particular `positionSeconds = lengthSeconds` yields the full bar of 40
filled glyphs. -/
theorem progressFill_trunc (p l : Int) (hl : 0 < l) (hp : 0 ≤ p) :
    progressFill p l = max 0 (min 40 ⌊(p : ℚ) * 40 / l⌋) ∧
      progressFill l l = 40 := by
  have hl' : (0 : Int) ≤ l := le_of_lt hl
  have hp40 : (0 : Int) ≤ p * 40 := by positivity
  have htd : (p * 40).tdiv l = p * 40 / l := Int.tdiv_eq_ediv hp40 hl'
  have h1 : ((l.toNat : ℕ) : ℚ) = (l : ℚ) := by exact_mod_cast Int.toNat_of_nonneg hl'
  have h2 : ((p * 40 : ℤ) : ℚ) = (p : ℚ) * 40 := by push_cast; ring
  have hfl : ⌊(p : ℚ) * 40 / l⌋ = p * 40 / l := by
    calc ⌊(p : ℚ) * 40 / l⌋
        = ⌊((p * 40 : ℤ) : ℚ) / ((l.toNat : ℕ) : ℚ)⌋ := by rw [h1, h2]
      _ = (p * 40) / ((l.toNat : ℤ)) := Rat.floor_intCast_div_natCast _ _
      _ = (p * 40) / l := by rw [Int.toNat_of_nonneg hl']
  constructor
  · rw [hfl, ← htd]
    simp only [progressFill, if_pos hl]
    rcases le_or_lt ((p * 40).tdiv l) 40 with h40 | h40 <;>
      rcases le_or_lt 0 ((p * 40).tdiv l) with h0 | h0 <;>
        simp [Int.max_def, Int.min_def] <;> omega
  · have hcancel : (l * 40).tdiv l = 40 :=
      Int.mul_tdiv_cancel_left _ (by omega)
    simp [progressFill, hl, hcancel]

/-- Witness for C3 (amended): the truncation law and the full-bar law
evaluated at `position = 2`, `length = 3`. -/
theorem progressFill_trunc_witness :
    progressFill 2 3 = max 0 (min 40 ⌊(2 : ℚ) * 40 / 3⌋) ∧
      progressFill 3 3 = 40 :=
  progressFill_trunc 2 3 (by decide) (by decide)

/-- Inversion of a successful `getMetadata`: the produced second counts
are the decoded microsecond values divided (truncating) by 1,000,000. -/
theorem getMetadata_ok_seconds (rmd : RawMetadata) (md : Metadata)
    (hok : getMetadata (some rmd) = .ok md) :
    ∃ L P, decodeInt64 rmd.length = some L ∧ decodeInt64 rmd.position = some P ∧
      md.length = L.tdiv 1000000 ∧ md.position = P.tdiv 1000000 := by
  cases hL : decodeInt64 rmd.length with
  | none => simp [getMetadata, hL] at hok
  | some L =>
    cases hP : decodeInt64 rmd.position with
    | none => simp [getMetadata, hL, hP] at hok
    | some P =>
      cases hA : rmd.artists with
      | none => simp [getMetadata, hL, hP, hA] at hok
      | some arts =>
        refine ⟨L, P, rfl, rfl, ?_, ?_⟩ <;>
          · simp [getMetadata, hL, hP, hA, pure, Except.pure] at hok
            rw [← hok]

/-- A raw record whose length arrives as the signed microsecond value
`-1000000` and whose position arrives as the unsigned value `2^63`. -/
def rawNeg : RawMetadata :=
  { title := "t", album := "a", artists := some ["x"]
    length := .i64 (-1000000), position := .u64 (2 ^ 63), artURL := none }

/-- C8 counterexample: `fetchMetadata` does *not* guarantee
non-negative second counts — a signed `-1000000` length yields
`lengthSeconds = -1 < 0`, and an unsigned position `2^63` wraps to
`-2^63` and yields `positionSeconds = -9223372036854 < 0`. -/
theorem metadata_seconds_negative :
    (getMetadata (some rawNeg)).map Metadata.length = .ok (-1) ∧
    (getMetadata (some rawNeg)).map Metadata.position = .ok (-9223372036854) ∧
    (-1 : Int) < 0 ∧ (-9223372036854 : Int) < 0 :=
  ⟨rfl, rfl, by decide, by decide⟩

/-- C8 amended: the microsecond value is converted to signed and
divided by 1,000,000 truncating, and the resulting `lengthSeconds` and
`positionSeconds` are non-negative exactly when the converted signed
values are — i.e. whenever a signed field is delivered non-negative and
an unsigned field is delivered below `2^63` (otherwise the signed
conversion, and hence the second count, can be negative). -/
theorem metadata_seconds_nonneg (rmd : RawMetadata) (md : Metadata)
    (hok : getMetadata (some rmd) = .ok md)
    (hli : ∀ v, rmd.length = DBusNum.i64 v → 0 ≤ v)
    (hlu : ∀ v, rmd.length = DBusNum.u64 v → v < 2 ^ 63)
    (hpi : ∀ v, rmd.position = DBusNum.i64 v → 0 ≤ v)
    (hpu : ∀ v, rmd.position = DBusNum.u64 v → v < 2 ^ 63) :
    0 ≤ md.length ∧ 0 ≤ md.position := by
  obtain ⟨L, P, hL, hP, hmdL, hmdP⟩ := getMetadata_ok_seconds rmd md hok
  have hL0 : 0 ≤ L := by
    cases hc : rmd.length with
    | i64 v =>
      rw [hc] at hL; simp [decodeInt64] at hL
      exact hL ▸ hli v hc
    | u64 v =>
      have hv : v < 2 ^ 63 := hlu v hc
      rw [hc] at hL; simp [decodeInt64, int64OfUInt64, hv] at hL
      omega
    | unsupported => rw [hc] at hL; simp [decodeInt64] at hL
  have hP0 : 0 ≤ P := by
    cases hc : rmd.position with
    | i64 v =>
      rw [hc] at hP; simp [decodeInt64] at hP
      exact hP ▸ hpi v hc
    | u64 v =>
      have hv : v < 2 ^ 63 := hpu v hc
      rw [hc] at hP; simp [decodeInt64, int64OfUInt64, hv] at hP
      omega
    | unsupported => rw [hc] at hP; simp [decodeInt64] at hP
  exact ⟨hmdL ▸ Int.tdiv_nonneg hL0 (by decide),
         hmdP ▸ Int.tdiv_nonneg hP0 (by decide)⟩

/-- Witness for C8 (amended): a record delivering a non-negative
signed length and an unsigned position below `2^63` yields
non-negative second counts. -/
theorem metadata_seconds_nonneg_witness :
    0 ≤ mdCDN.length ∧ 0 ≤ mdCDN.position :=
  metadata_seconds_nonneg rawCDN mdCDN (by rfl)
    (fun v hv => by cases hv; decide) (fun v hv => by cases hv)
    (fun v hv => by cases hv; decide) (fun v hv => by cases hv)

end Sptsong
